import Mathlib

/-!
Shallow embedding of the pyperator port/connection substrate
(src/pyperator/utils.py) and proofs about it.

Conventions of the embedding:
* Component identity is a `Nat`; a port's `component` is `Option Nat`
  (`None` in Python is `none`).
* `asyncio` coroutines are modelled as pure state transformers; a call that
  would suspend forever in the sequential setting is reported as a
  `blocked` outcome.
* Python sets that the code only ever adds to are modelled as duplicate-free
  lists with `setAdd`.
-/

namespace Pyperator

/-- Modelled from the spec: the module pyperator.IP (imported by
src/pyperator/utils.py but absent from src/) provides `InformationPacket`
and `EndOfStream`. Per the spec a packet carries a `value` (opaque payload),
an `owner` (identity of the creating component, or none) and a boolean
end-of-stream discriminant; `EndOfStream` is the distinguished variant with
no payload. -/
inductive Packet (α : Type) where
  | info (value : α) (owner : Option Nat)
  | eos (owner : Option Nat)
deriving Repr, DecidableEq

/-- Packet.is_eos: true exactly on the EndOfStream variant. -/
def Packet.is_eos {α : Type} : Packet α → Bool
  | .eos _ => true
  | .info _ _ => false

/-- Packet owner attribute. -/
def Packet.owner {α : Type} : Packet α → Option Nat
  | .info _ o => o
  | .eos o => o

/-- Assignment `packet.owner = o` (used by OutputPort.close). -/
def Packet.setOwner {α : Type} : Packet α → Option Nat → Packet α
  | .info v _, o => .info v o
  | .eos _, o => .eos o

/-- Modelled from the spec: `InformationPacket(value)` constructed with no
owner argument, as in PortInterface.send (utils.py line 211); the owner
attribute defaults to unset ("identity of the component that created it,
or none"). -/
def InformationPacket {α : Type} (value : α) : Packet α :=
  Packet.info value none

/-- The error taxonomy of pyperator.exceptions (module absent from src/;
names taken from the import list of utils.py), plus the two built-in Python
errors that the code under src/ can raise. -/
inductive PyError where
  | portClosed
  | portDisconnected
  | outputOnly
  | inputOnly
  | packetOwned
  | portAlreadyExisting
  | portNotExisting
  | valueError
  | typeError
deriving Repr, DecidableEq

/-! ## IIPConnection (ConstantConnection) -/

/-- IIPConnection state: a stored value and the remaining-delivery counter
`n_rec`, initialised to 1 by `__init__` (utils.py lines 155-159). -/
structure IIPConnection (α : Type) where
  value : α
  n_rec : Int
deriving Repr, DecidableEq

/-- `IIPConnection(value)`: counter starts at 1. -/
def IIPConnection.mkNew {α : Type} (value : α) : IIPConnection α :=
  { value := value, n_rec := 1 }

/-- Result of IIPConnection.receive: either the stored value or a fresh
EndOfStream packet. -/
inductive IIPResult (α : Type) where
  | value (v : α)
  | endOfStream
deriving Repr, DecidableEq

/-- IIPConnection.receive (utils.py lines 161-166): if `n_rec <= 0` return
`EndOfStream()`, else decrement `n_rec` and return the value. -/
def IIPConnection.receive {α : Type} (c : IIPConnection α) :
    IIPResult α × IIPConnection α :=
  if c.n_rec ≤ 0 then (IIPResult.endOfStream, c)
  else (IIPResult.value c.value, { value := c.value, n_rec := c.n_rec - 1 })

/-- The state of an IIPConnection after `n` receive calls. -/
def IIPConnection.receiveN {α : Type} (c : IIPConnection α) : Nat → IIPConnection α
  | 0 => c
  | Nat.succ k => (IIPConnection.receive (IIPConnection.receiveN c k)).2

/-! ## Connections as seen from a port

An input port's `connections` set may hold both queue-backed `Connection`
objects and `IIPConnection` objects (added by `set_initial_packet`, which
stores an InformationPacket as the IIP value). -/

/-- A connection bound to a port: either a queue-backed Connection
(`items` is the asyncio.Queue content in FIFO order, `maxsize` its bound,
with `maxsize ≤ 0` meaning unbounded as in asyncio) or an IIPConnection
holding a packet and its remaining-delivery counter. -/
inductive Conn (α : Type) where
  | queueConn (items : List (Packet α)) (maxsize : Int)
  | iipConn (value : Packet α) (n_rec : Int)
deriving Repr, DecidableEq

/-- Whether an awaited `conn.receive()` completes without suspending:
`Connection.receive` awaits `self._queue.get()`, which returns immediately
iff the queue is nonempty; `IIPConnection.receive` contains no suspension
point and always completes at once. -/
def Conn.ready {α : Type} : Conn α → Bool
  | .queueConn items _ => !items.isEmpty
  | .iipConn _ _ => true

/-- The effect of one completed `conn.receive()`: a queue connection
removes and returns the head packet (`get` plus `task_done`); an
IIPConnection behaves as IIPConnection.receive, returning `EndOfStream()`
once exhausted. The empty-queue case is unreachable when `ready` holds and
returns a junk value. -/
def Conn.receiveNow {α : Type} : Conn α → Packet α × Conn α
  | .queueConn [] m => (Packet.eos none, .queueConn [] m)
  | .queueConn (p :: rest) m => (p, .queueConn rest m)
  | .iipConn v n =>
      if n ≤ 0 then (Packet.eos none, .iipConn v n)
      else (v, .iipConn v (n - 1))

/-- Whether `self._queue.full()` holds, i.e. `await put` would suspend:
an asyncio.Queue with `maxsize ≤ 0` is never full. -/
def Conn.full {α : Type} : Conn α → Bool
  | .queueConn items m => decide (0 < m ∧ m ≤ (items.length : Int))
  | .iipConn _ _ => false

/-- The effect of `conn.send(packet)` on the connection (utils.py lines
120-124): the full-queue branch only logs; the packet is appended by
`await self._queue.put(packet)` once there is room — in this sequential
embedding a full queue leaves the state unchanged (the put is suspended).
Output ports never hold `iipConn` connections (IIPConnection.send raises
NotImplementedError), so that case is left as the identity. -/
def Conn.sendStep {α : Type} (c : Conn α) (p : Packet α) : Conn α :=
  match c with
  | .queueConn items m =>
      if Conn.full (Conn.queueConn items m) then Conn.queueConn items m
      else Conn.queueConn (items ++ [p]) m
  | .iipConn v n => .iipConn v n

/-- Models one pass of the event loop under
`asyncio.wait([conn.receive() for conn in conns], return_when=FIRST_COMPLETED)`
(utils.py lines 550-551): every wrapped receive task gets one step before
the waiter callback runs, so every connection whose receive does not
suspend (nonempty queue, or any IIPConnection) completes in that pass and
each of them has already removed its item; all of those tasks land in
`done`. Returns the list of completed results in connection order together
with the post-state of every connection (suspended receives are later
cancelled, which removes nothing). -/
def raceStep {α : Type} : List (Conn α) → List (Packet α) × List (Conn α)
  | [] => ([], [])
  | c :: rest =>
      let (ps, cs) := raceStep rest
      if c.ready then
        let (p, c2) := c.receiveNow
        (p :: ps, c2 :: cs)
      else (ps, c :: cs)

/-! ## InputPort -/

/-- InputPort state (fields set by PortInterface.__init__, utils.py lines
181-190): `openFlag` models the attribute `open` (a Lean keyword),
`iip` the attribute `_iip` (as a flag; the code only tests its truthiness
in receive_packet). -/
structure InputPort (α : Type) where
  name : String
  component : Option Nat
  openFlag : Bool
  iip : Bool
  optional : Bool
  connections : List (Conn α)
deriving Repr, DecidableEq

/-- PortInterface.is_connected: `len(self.connections) > 0`. -/
def InputPort.is_connected {α : Type} (p : InputPort α) : Bool :=
  decide (0 < p.connections.length)

/-- Whether `conn._queue.join()` completes at once for a queue connection:
every `get` in Connection.receive is immediately followed by `task_done`,
so the queue's unfinished-task count equals the number of items it still
holds and the join completes exactly when the queue is empty. A port whose
`_iip` flag is unset never holds an iipConn (set_initial_packet is the
only code that adds one, and it sets `_iip`, in which case close skips the
join entirely), so the iipConn case is never exercised by close and is set
to true. -/
def Conn.joinReady {α : Type} : Conn α → Bool
  | .queueConn items _ => items.isEmpty
  | .iipConn _ _ => true

/-- Whether a close call completed, or suspended forever inside
`Queue.join` (no other task can drain the queue in this sequential
embedding). -/
inductive CloseOutcome where
  | done
  | blocked
deriving Repr, DecidableEq

/-- InputPort.close (utils.py lines 580-584): when `_iip` is unset it
awaits `asyncio.wait([conn._queue.join() ...], ALL_COMPLETED)` before
setting `open = False`; a join on a queue that still holds items never
completes, so the close suspends there and the flag assignment is not
reached. With `_iip` set, or with every bound queue drained, the close
completes and marks the port closed. -/
def InputPort.close {α : Type} (p : InputPort α) : CloseOutcome × InputPort α :=
  if p.iip then (CloseOutcome.done, { p with openFlag := false })
  else if p.connections.all Conn.joinReady then
    (CloseOutcome.done, { p with openFlag := false })
  else (CloseOutcome.blocked, p)

/-- The possible outcomes of an InputPort.receive_packet call: a returned
packet, a raised StopAsyncIteration, a raised error, the implicit `None`
return of the optional-and-disconnected branch, or suspension with no
ready connection. -/
inductive ReceiveOutcome (α : Type) where
  | packet (p : Packet α)
  | stopIteration
  | error (e : PyError)
  | noneValue
  | blocked
deriving Repr, DecidableEq

/-- InputPort.receive_packet (utils.py lines 545-575). `choice` resolves
the unspecified order of `done.pop()` on the set of completed receive
tasks: the packet taken is the `choice % n`-th completed one. After the
pop, the pending (suspended) receives are cancelled, removing nothing; the
other completed results are discarded. If `_iip` is set, `await
self.close()` runs and completes (it skips the join). If the taken packet
is EndOfStream, `await self.close()` runs before StopAsyncIteration is
raised: when that close completes, the exception propagates; when it
suspends in a queue join (some bound queue still holds items), the call
never returns. Otherwise the packet is returned. -/
def InputPort.receive_packet {α : Type} (port : InputPort α) (choice : Nat) :
    ReceiveOutcome α × InputPort α :=
  if port.is_connected then
    if port.openFlag then
      let r := raceStep port.connections
      if r.1.isEmpty then (ReceiveOutcome.blocked, port)
      else
        let packet := r.1.getD (choice % r.1.length) (Packet.eos none)
        let port2 : InputPort α := { port with connections := r.2 }
        let port3 := if port2.iip then (InputPort.close port2).2 else port2
        if packet.is_eos then
          let c := InputPort.close port3
          match c.1 with
          | CloseOutcome.done => (ReceiveOutcome.stopIteration, c.2)
          | CloseOutcome.blocked => (ReceiveOutcome.blocked, c.2)
        else (ReceiveOutcome.packet packet, port3)
    else (ReceiveOutcome.error PyError.portClosed, port)
  else
    if port.optional then (ReceiveOutcome.noneValue, port)
    else (ReceiveOutcome.error PyError.portDisconnected, port)

/-- The packet that `done.pop()` hands to receive_packet, when any receive
completes: the `choice % n`-th completed result of the race. -/
def InputPort.chosenPacket {α : Type} (port : InputPort α) (choice : Nat) :
    Option (Packet α) :=
  let ps := (raceStep port.connections).1
  ps.get? (choice % ps.length)

/-! ## OutputPort -/

/-- OutputPort state; same attributes as InputPort (output ports never
carry an IIP, the `_iip` attribute stays at its initial falsy value). -/
structure OutputPort (α : Type) where
  name : String
  component : Option Nat
  openFlag : Bool
  optional : Bool
  connections : List (Conn α)
deriving Repr, DecidableEq

/-- PortInterface.is_connected for output ports. -/
def OutputPort.is_connected {α : Type} (p : OutputPort α) : Bool :=
  decide (0 < p.connections.length)

/-- The possible outcomes of OutputPort.send_packet: normal return, the
optional-and-disconnected drop, a raised error, or suspension because some
bound queue is full. -/
inductive SendOutcome where
  | ok
  | dropped
  | error (e : PyError)
  | blocked
deriving Repr, DecidableEq

/-- The combined effect of
`asyncio.wait([conn.send(packet) for conn in connections], ALL_COMPLETED)`:
every bound connection performs its send step. -/
def broadcast {α : Type} (conns : List (Conn α)) (p : Packet α) : List (Conn α) :=
  conns.map (fun c => Conn.sendStep c p)

/-- OutputPort.send_packet (utils.py lines 489-511). Checks `is_connected`,
then the ownership condition `packet.owner == self.component or
packet.owner == None`; on success awaits
`asyncio.wait([conn.send(packet) ...], return_when=ALL_COMPLETED)`, i.e.
appends the packet to every bound queue with room (a full queue suspends
its put and the overall wait blocks). Note: the `open` attribute is never
consulted. -/
def OutputPort.send_packet {α : Type} (port : OutputPort α) (packet : Packet α) :
    SendOutcome × OutputPort α :=
  if port.is_connected then
    if packet.owner = port.component ∨ packet.owner = none then
      let cs := broadcast port.connections packet
      if port.connections.any Conn.full then
        (SendOutcome.blocked, { port with connections := cs })
      else (SendOutcome.ok, { port with connections := cs })
    else (SendOutcome.error PyError.packetOwned, port)
  else
    if port.optional then (SendOutcome.dropped, port)
    else (SendOutcome.error PyError.portDisconnected, port)

/-- PortInterface.send (utils.py lines 210-212):
`packet = InformationPacket(value)` — constructed with no owner argument —
then `await self.send_packet(packet)`. -/
def OutputPort.send {α : Type} (port : OutputPort α) (value : α) :
    SendOutcome × OutputPort α :=
  OutputPort.send_packet port (InformationPacket value)

/-- OutputPort.close (utils.py lines 513-519): builds `EndOfStream()`,
assigns its owner to the component, sends it through send_packet, and only
then sets `open = False`; if the send raises or suspends, the flag
assignment is not reached. -/
def OutputPort.close {α : Type} (port : OutputPort α) :
    SendOutcome × OutputPort α :=
  let packet : Packet α := Packet.setOwner (Packet.eos none) port.component
  let r := OutputPort.send_packet port packet
  match r.1 with
  | SendOutcome.error e => (SendOutcome.error e, r.2)
  | SendOutcome.blocked => (SendOutcome.blocked, r.2)
  | o => (o, { r.2 with openFlag := false })

/-! ## Connection wiring (Connection.connect and the port connect methods)

This view tracks object identities: ports are named by `Nat` ids and a
port's `connections` set is the list of bound Connection ids; the
asyncio.Queue allocated on first connect is named by a `Nat` id, so that
distinctness of queues is expressible. -/

/-- Python set.add on a list kept duplicate-free. -/
def setAdd (l : List Nat) (x : Nat) : List Nat :=
  if x ∈ l then l else l ++ [x]

/-- Connection state (utils.py lines 107-113): `queueId` is the identity of
the asyncio.Queue (`_queue`, None until the first connect), `queueItems`
its content, `maxsize` its bound (meaningful only once the queue exists),
`source` and `destination` the sets of bound port ids. -/
structure Connection (α : Type) where
  queueId : Option Nat
  queueItems : List (Packet α)
  maxsize : Int
  source : List Nat
  destination : List Nat
deriving Repr, DecidableEq

/-- Connection(): no queue yet, empty source and destination sets. -/
def Connection.mkNew {α : Type} : Connection α :=
  { queueId := none, queueItems := [], maxsize := -1, source := [], destination := [] }

/-- ConnectionInterface.capacity (utils.py lines 88-93):
`if self._queue: return self._queue.maxsize() else: return -1`. An
asyncio.Queue is truthy, and its `maxsize` is an integer attribute, so
`self._queue.maxsize()` calls an integer and raises TypeError whenever a
queue exists; only the no-queue branch returns normally. -/
def Connection.capacity {α : Type} (c : Connection α) : Except PyError Int :=
  match c.queueId with
  | some _ => Except.error PyError.typeError
  | none => Except.ok (-1)

/-- The state a connect call touches: the Connection object plus the
`connections` sets of the two port endpoints (as Connection-id lists). -/
structure ConnectState (α : Type) where
  conn : Connection α
  sourcePortConns : List Nat
  destPortConns : List Nat
deriving Repr, DecidableEq

/-- Connection.connect (utils.py lines 126-142). In the already-bound
branch (`len(self.destination) > 0`) the source evaluates
`size == self.capacity()`: reading the `capacity` property raises
TypeError (see Connection.capacity), and even if it returned the integer,
the extra call parentheses would again call an integer. Either way the
comparison — and with it both the intended shared-queue acceptance
(`self.source.add(source); self.destination.add(destination)`) and the
intended `raise ValueError()` on a capacity mismatch — is unreachable. In
the first-connect branch the endpoints are added, a fresh queue of the
requested size is created, and the connection registers itself on both
ports' connection sets (lines 141-142, skipped when an exception
propagates). -/
def Connection.connect {α : Type} (connId : Nat) (st : ConnectState α)
    (sourceId destId : Nat) (size : Int) (freshQueue : Nat) :
    Except PyError (ConnectState α) :=
  if 0 < st.conn.destination.length then
    match Connection.capacity st.conn with
    | Except.error e => Except.error e
    | Except.ok _ => Except.error PyError.typeError
  else
    Except.ok
      { conn := { queueId := some freshQueue, queueItems := [], maxsize := size,
                  source := setAdd st.conn.source sourceId,
                  destination := setAdd st.conn.destination destId },
        sourcePortConns := setAdd st.sourcePortConns connId,
        destPortConns := setAdd st.destPortConns connId }

/-- OutputPort.connect (utils.py lines 481-483): `new_conn = Connection()`
followed by `new_conn.connect(self, other, size=size)`. `connId` and
`freshQueue` name the newly allocated Connection object and its queue;
`selfConns` and `otherConns` are the two ports' current connection sets. -/
def OutputPort.connect {α : Type} (selfConns otherConns : List Nat)
    (connId selfId otherId : Nat) (size : Int) (freshQueue : Nat) :
    Except PyError (ConnectState α) :=
  Connection.connect connId
    { conn := Connection.mkNew, sourcePortConns := selfConns,
      destPortConns := otherConns }
    selfId otherId size freshQueue

/-- InputPort.connect (utils.py lines 529-531): `new_conn = Connection()`
followed by `new_conn.connect(other, self, size=size)` — the other port is
the source, this port the destination. -/
def InputPort.connect {α : Type} (selfConns otherConns : List Nat)
    (connId selfId otherId : Nat) (size : Int) (freshQueue : Nat) :
    Except PyError (ConnectState α) :=
  Connection.connect connId
    { conn := Connection.mkNew, sourcePortConns := otherConns,
      destPortConns := selfConns }
    otherId selfId size freshQueue

/-! ## PortRegister -/

/-- Python dict insert-or-replace: `d.update({k: v})` replaces in place
when the key exists (keeping its position) and appends otherwise. -/
def dictInsert {β : Type} (m : List (String × β)) (k : String) (v : β) :
    List (String × β) :=
  if m.any (fun kv => kv.1 == k) then
    m.map (fun kv => if kv.1 == k then (k, v) else kv)
  else m ++ [(k, v)]

/-- PortRegister state (utils.py lines 592-595): the owning component and
the insertion-ordered name-to-port dict. The register is modelled over
input ports; add_as and receive_packets treat ports uniformly. -/
structure PortRegister (α : Type) where
  component : Nat
  ports : List (String × InputPort α)
deriving Repr, DecidableEq

/-- PortRegister.add_as (utils.py lines 603-611): `if port.component:` —
truthy exactly when the port already has an owning component — raises
PortAlreadyExistingError before the dict is touched; otherwise the port's
component is assigned and `self.ports.update({name: port})` inserts, or
silently replaces, the entry under `name`. (The AttributeError guard
around the assignment cannot fire for an actual port object and is not
modelled.) -/
def PortRegister.add_as {α : Type} (reg : PortRegister α) (port : InputPort α)
    (name : String) : Except PyError (PortRegister α) :=
  if port.component ≠ none then Except.error PyError.portAlreadyExisting
  else
    let port2 := { port with component := some reg.component }
    Except.ok { reg with ports := dictInsert reg.ports name port2 }

/-- The open entries of the register, in insertion order. -/
def PortRegister.openPorts {α : Type} (reg : PortRegister α) :
    List (String × InputPort α) :=
  reg.ports.filter (fun kv => kv.2.openFlag)

/-- Awaiting the stored futures in dict order (utils.py lines 661-663):
the first future whose task raised StopAsyncIteration or an error
propagates that exception out of the loop and the later entries are never
stored; a future that never completes blocks the loop (reported with the
`blocked` marker). Otherwise each awaited value — a packet, or the None of
an optional-disconnected receive — is stored under its key. -/
def awaitFutures {α : Type} :
    List (String × ReceiveOutcome α) →
    Except (ReceiveOutcome α) (List (String × ReceiveOutcome α))
  | [] => Except.ok []
  | (k, v) :: rest =>
      match v with
      | ReceiveOutcome.stopIteration => Except.error ReceiveOutcome.stopIteration
      | ReceiveOutcome.error e => Except.error (ReceiveOutcome.error e)
      | ReceiveOutcome.blocked => Except.error ReceiveOutcome.blocked
      | w => Except.map (fun m => (k, w) :: m) (awaitFutures rest)

/-- PortRegister.receive_packets (utils.py lines 654-664). First loop:
for every port of the register with `open` set, a task running its
receive_packet is created — so the receive effects of every open port
happen — and its future is stored in a dict keyed by the port's own `name`
attribute (a later open port with the same name silently replaces the
earlier future, which then is never awaited); closed ports are skipped.
Second loop: the futures are awaited in insertion order. The Python code
iterates `self.values()`, a set; this embedding fixes insertion order.
Every port's race is resolved by the same `choice`. Returns the raised
exception or the name-to-outcome mapping, with the register holding the
post-receive port states. -/
def PortRegister.receive_packets {α : Type} (reg : PortRegister α) (choice : Nat) :
    Except (ReceiveOutcome α) (List (String × ReceiveOutcome α)) × PortRegister α :=
  let results : List (String × ReceiveOutcome α) :=
    (PortRegister.openPorts reg).map
      (fun kv => (kv.2.name, (InputPort.receive_packet kv.2 choice).1))
  let futures := results.foldl (fun m kv => dictInsert m kv.1 kv.2) []
  let reg2 : PortRegister α :=
    { reg with ports := reg.ports.map (fun kv =>
        if kv.2.openFlag then (kv.1, (InputPort.receive_packet kv.2 choice).2)
        else kv) }
  (awaitFutures futures, reg2)

/-! ## Helper lemmas -/

/-- After the first receive, the state of a freshly seeded IIPConnection is
the exhausted one: value kept, counter at 0, and it stays there. -/
theorem IIPConnection.receiveN_succ_mkNew {α : Type} (v : α) (k : Nat) :
    IIPConnection.receiveN (IIPConnection.mkNew v) (k + 1) =
      { value := v, n_rec := 0 } := by
  induction k with
  | zero =>
      simp [IIPConnection.receiveN, IIPConnection.mkNew, IIPConnection.receive]
  | succ k ih =>
      rw [IIPConnection.receiveN, ih]
      simp [IIPConnection.receive]

/-- Inserting a key absent from the dict appends the pair. -/
theorem dictInsert_of_not_mem {β : Type} (m : List (String × β)) (k : String)
    (v : β) (h : m.any (fun kv => kv.1 == k) = false) :
    dictInsert m k v = m ++ [(k, v)] := by
  simp [dictInsert, h]

/-- Building a dict by successive inserts of pairs with pairwise-distinct
keys, all fresh for the accumulator, just appends the pairs. -/
theorem foldl_dictInsert_nodup {β : Type} :
    ∀ (l acc : List (String × β)),
      (acc.map Prod.fst ++ l.map Prod.fst).Nodup →
      l.foldl (fun m kv => dictInsert m kv.1 kv.2) acc = acc ++ l
  | [], acc, _ => by simp
  | kv :: tl, acc, h => by
      have h' : (acc.map Prod.fst ++ kv.1 :: tl.map Prod.fst).Nodup := by
        simpa using h
      have hdisj := List.disjoint_of_nodup_append h'
      have hnotmem : kv.1 ∉ acc.map Prod.fst := by
        intro hmem
        exact hdisj hmem (List.mem_cons_self _ _)
      have hany : acc.any (fun x => x.1 == kv.1) = false := by
        rw [List.any_eq_false]
        intro x hx
        simp only [beq_iff_eq]
        intro hEq
        exact hnotmem (hEq ▸ List.mem_map_of_mem Prod.fst hx)
      have hnext : ((acc ++ [kv]).map Prod.fst ++ tl.map Prod.fst).Nodup := by
        simpa [List.append_assoc] using h'
      rw [List.foldl_cons, dictInsert_of_not_mem _ _ _ hany,
        foldl_dictInsert_nodup tl (acc ++ [kv]) hnext]
      simp

/-- When every stored future completed with a data packet, awaiting them
all returns the stored mapping unchanged. -/
theorem awaitFutures_of_packets {α : Type} :
    ∀ l : List (String × ReceiveOutcome α),
      (∀ kv ∈ l, ∃ p, kv.2 = ReceiveOutcome.packet p) →
      awaitFutures l = Except.ok l
  | [], _ => rfl
  | (k, v) :: tl, h => by
      obtain ⟨p, hp⟩ := h (k, v) (List.mem_cons_self _ _)
      have ih := awaitFutures_of_packets tl
        (fun kv hkv => h kv (List.mem_cons_of_mem _ hkv))
      simp only at hp
      subst hp
      simp [awaitFutures, ih, Except.map]

/-! ## Claim theorems -/

/-- C3: an IIPConnection seeded with a value v (counter at 1) returns v on
the first receive, and on every subsequent receive — after any positive
number of polls — returns EndOfStream. -/
theorem iip_single_delivery {α : Type} (v : α) (k : Nat) (hk : 1 ≤ k) :
    (IIPConnection.receive (IIPConnection.mkNew v)).1 = IIPResult.value v ∧
    (IIPConnection.receive (IIPConnection.receiveN (IIPConnection.mkNew v) k)).1 =
      IIPResult.endOfStream := by
  constructor
  · simp [IIPConnection.mkNew, IIPConnection.receive]
  · obtain ⟨j, rfl⟩ := Nat.exists_eq_add_of_le hk
    rw [Nat.add_comm 1 j, IIPConnection.receiveN_succ_mkNew]
    simp [IIPConnection.receive]

/-- Witness for C3 at v = 37 after 2 polls. -/
theorem iip_single_delivery_witness :
    1 ≤ 2 ∧
    ((IIPConnection.receive (IIPConnection.mkNew 37)).1 = IIPResult.value 37 ∧
     (IIPConnection.receive (IIPConnection.receiveN (IIPConnection.mkNew 37) 2)).1 =
       IIPResult.endOfStream) :=
  ⟨by decide, iip_single_delivery 37 2 (by decide)⟩

/-- C1: [code-bug exhibit] an open, connected input port with two bound
connections, each already holding one data packet. Both wrapped receive
tasks complete in the first event-loop pass of
`asyncio.wait(..., FIRST_COMPLETED)`, each removing its packet;
`done.pop()` returns the packet of one and the other completed result is
discarded. The call returns packet 10 yet BOTH queues end empty: two
packets were removed and packet 20 is lost, contradicting the claim that
at most one packet is removed from exactly one connection and none is
lost. -/
theorem receive_race_removes_two_packets :
    InputPort.receive_packet
      { name := "a", component := some 0, openFlag := true, iip := false,
        optional := false,
        connections := [Conn.queueConn [Packet.info 10 none] (-1),
                        Conn.queueConn [Packet.info 20 none] (-1)] } 0 =
      (ReceiveOutcome.packet (Packet.info (10 : Nat) none),
       { name := "a", component := some 0, openFlag := true, iip := false,
         optional := false,
         connections := [Conn.queueConn [] (-1), Conn.queueConn [] (-1)] }) := by
  rfl

/-- C5: [code-bug exhibit] a Connection first connected with capacity 5;
a second connect raises TypeError whether the requested capacity matches
(5) or differs (10): the source evaluates `size == self.capacity()`,
calling the `capacity` property result — and inside the property the
integer queue attribute `maxsize` — as functions, so the intended
shared-queue acceptance and the intended ValueError on a mismatch are both
unreachable. -/
theorem second_connect_raises_type_error :
    ((Connection.connect 7
        { conn := Connection.mkNew, sourcePortConns := [], destPortConns := [] }
        0 1 5 100 : Except PyError (ConnectState Nat)).bind
      (fun st => Connection.connect 8 st 2 3 5 101) =
      Except.error PyError.typeError) ∧
    ((Connection.connect 7
        { conn := Connection.mkNew, sourcePortConns := [], destPortConns := [] }
        0 1 5 100 : Except PyError (ConnectState Nat)).bind
      (fun st => Connection.connect 8 st 2 3 10 101) =
      Except.error PyError.typeError) := by
  exact ⟨rfl, rfl⟩

/-- C4: [counterexample] an open, connected, non-iip input port whose single
connection's queue holds EndOfStream followed by a data packet. The race
removes only the head, so the taken packet is EndOfStream while the queue
still holds one item; the `await self.close()` that precedes the raise
then suspends forever in `Queue.join`: the call never returns, the open
flag stays true and StopAsyncIteration is never raised — so the claim that
obtaining EndOfStream closes the port and signals termination is false at
this input. -/
theorem receive_eos_blocks_on_undrained_queue :
    InputPort.receive_packet
      { name := "a", component := some 0, openFlag := true, iip := false,
        optional := false,
        connections := [Conn.queueConn
          [Packet.eos none, Packet.info (5 : Nat) none] (-1)] } 0 =
      (ReceiveOutcome.blocked,
       { name := "a", component := some 0, openFlag := true, iip := false,
         optional := false,
         connections := [Conn.queueConn [Packet.info 5 none] (-1)] }) := by
  rfl

/-- C4 amended: whenever receive_packet on an open, connected input port
takes an EndOfStream packet from one of its connections AND every bound
queue is drained after the race, the internal close completes: the port
ends with its open flag false and the call raises StopAsyncIteration — a
control outcome, not a returned packet. (When some bound queue still
holds items, the close suspends in the queue join and the call neither
closes the port nor returns: counterexample theorem.) -/
theorem receive_eos_closes_port {α : Type} (port : InputPort α) (choice : Nat)
    (p : Packet α)
    (hconn : port.is_connected = true) (hopen : port.openFlag = true)
    (hchosen : InputPort.chosenPacket port choice = some p)
    (heos : p.is_eos = true)
    (hdrain : ((raceStep port.connections).2).all Conn.joinReady = true) :
    ∃ port2, InputPort.receive_packet port choice =
        (ReceiveOutcome.stopIteration, port2) ∧ port2.openFlag = false := by
  have hget : ((raceStep port.connections).1).get?
      (choice % ((raceStep port.connections).1).length) = some p := hchosen
  have hne : ((raceStep port.connections).1).isEmpty = false := by
    cases hps : (raceStep port.connections).1 with
    | nil => rw [hps] at hget; simp at hget
    | cons q qs => simp [hps]
  have hgetD : ((raceStep port.connections).1).getD
      (choice % ((raceStep port.connections).1).length) (Packet.eos none) = p := by
    rw [List.getD_eq_getElem?_getD, ← List.get?_eq_getElem?, hget]
    rfl
  refine
    ⟨{ port with
         connections := (raceStep port.connections).2, openFlag := false },
     ?_, rfl⟩
  cases hiip : port.iip with
  | false =>
      simp only [InputPort.receive_packet, hconn, hopen, if_true, hne,
        Bool.false_eq_true, if_false, hgetD, heos, InputPort.close, hiip,
        hdrain]
  | true =>
      simp only [InputPort.receive_packet, hconn, hopen, if_true, hne,
        Bool.false_eq_true, if_false, hgetD, heos, InputPort.close, hiip,
        if_true, hdrain]

/-- Witness for C4: a port with a single connection whose queue holds
exactly EndOfStream; the race drains the queue, the close completes, the
call raises StopAsyncIteration and the port is closed. -/
theorem receive_eos_closes_port_witness :
    ∃ port2, InputPort.receive_packet
        { name := "a", component := some 0, openFlag := true, iip := false,
          optional := false,
          connections := [Conn.queueConn [Packet.eos none] (-1)] }
        0 =
      (ReceiveOutcome.stopIteration (α := Nat), port2) ∧ port2.openFlag = false :=
  receive_eos_closes_port
    { name := "a", component := some 0, openFlag := true, iip := false,
      optional := false, connections := [Conn.queueConn [Packet.eos none] (-1)] }
    0 (Packet.eos none) (by decide) rfl rfl rfl (by decide)

/-- C2: [counterexample] a connected output port whose open flag is false:
send_packet succeeds — it delivers the packet to the bound connection and
does not fail with PortClosed — so the claim that every operation on a
closed port fails with PortClosed is false at this input
(OutputPort.send_packet never consults the `open` attribute). -/
theorem closed_output_send_not_portclosed :
    OutputPort.send_packet
      { name := "o", component := some 0, openFlag := false, optional := false,
        connections := [Conn.queueConn [] (-1)] }
      (Packet.info (7 : Nat) none) =
      (SendOutcome.ok,
       { name := "o", component := some 0, openFlag := false, optional := false,
         connections := [Conn.queueConn [Packet.info 7 none] (-1)] }) ∧
    SendOutcome.ok ≠ SendOutcome.error PyError.portClosed := by
  exact ⟨rfl, by decide⟩

/-- C2 amended: receive_packet on a closed, connected input port fails
with PortClosed and leaves the port unchanged. A repeated InputPort.close
on a closed port is a no-op when every bound queue is drained — it
re-joins the queues and leaves the port as it was; when a bound queue
still holds items (possible precisely because the send path ignores the
open flag), a repeated close suspends in the queue join instead of
completing. OutputPort.send_packet and OutputPort.close never consult the
open flag — on a connected output port (closed or not, every queue with
room) a send of an unowned packet succeeds and is delivered, and a
(repeated) close succeeds and sends a further EndOfStream owned by the
component. -/
theorem closed_port_operations {α : Type}
    (ip : InputPort α) (op : OutputPort α) (p : Packet α) (choice : Nat)
    (hio : ip.openFlag = false) (hic : ip.is_connected = true)
    (hoc : op.is_connected = true)
    (hful : op.connections.any Conn.full = false)
    (hown : p.owner = none) :
    InputPort.receive_packet ip choice =
      (ReceiveOutcome.error PyError.portClosed, ip) ∧
    (ip.connections.all Conn.joinReady = true →
      InputPort.close ip = (CloseOutcome.done, ip)) ∧
    (ip.iip = false → ip.connections.all Conn.joinReady = false →
      InputPort.close ip = (CloseOutcome.blocked, ip)) ∧
    OutputPort.send_packet op p =
      (SendOutcome.ok, { op with connections := broadcast op.connections p }) ∧
    OutputPort.close op =
      (SendOutcome.ok,
       { op with
         connections :=
           broadcast op.connections (Packet.setOwner (Packet.eos none) op.component),
         openFlag := false }) := by
  have hid : { ip with openFlag := false } = ip := by
    cases ip with
    | mk n c o i t conns =>
        simp only at hio
        subst hio
        rfl
  refine ⟨?_, ?_, ?_, ?_, ?_⟩
  · simp [InputPort.receive_packet, hic, hio]
  · intro hjoin
    have hdone : InputPort.close ip =
        (CloseOutcome.done, { ip with openFlag := false }) := by
      cases hiip : ip.iip with
      | true => simp [InputPort.close, hiip]
      | false => simp [InputPort.close, hiip, hjoin]
    rw [hdone, hid]
  · intro hiip hjoin
    simp [InputPort.close, hiip, hjoin]
  · simp [OutputPort.send_packet, hoc, hown, hful]
  · have howner :
        Packet.owner (Packet.setOwner (Packet.eos none : Packet α) op.component) =
          op.component := by
      cases op.component <;> rfl
    simp [OutputPort.close, OutputPort.send_packet, hoc, hful, howner]

/-- Witness for C2 at concrete closed ports: an input port with one
drained unbounded connection (receive fails with PortClosed, repeated
close a no-op), a second closed input port whose queue retains an item
(repeated close blocks), and a closed output port (send and repeated
close succeed). -/
theorem closed_port_operations_witness :
    InputPort.receive_packet
      { name := "i", component := some 1, openFlag := false, iip := false,
        optional := false, connections := [Conn.queueConn [] (-1)] } 0 =
      ((ReceiveOutcome.error PyError.portClosed : ReceiveOutcome Nat),
       { name := "i", component := some 1, openFlag := false, iip := false,
         optional := false, connections := [Conn.queueConn [] (-1)] }) ∧
    InputPort.close
      { name := "i", component := some 1, openFlag := false, iip := false,
        optional := false,
        connections := [Conn.queueConn ([] : List (Packet Nat)) (-1)] } =
      (CloseOutcome.done,
       { name := "i", component := some 1, openFlag := false, iip := false,
         optional := false, connections := [Conn.queueConn [] (-1)] }) ∧
    InputPort.close
      { name := "i", component := some 1, openFlag := false, iip := false,
        optional := false,
        connections := [Conn.queueConn [Packet.info (4 : Nat) none] (-1)] } =
      (CloseOutcome.blocked,
       { name := "i", component := some 1, openFlag := false, iip := false,
         optional := false,
         connections := [Conn.queueConn [Packet.info 4 none] (-1)] }) ∧
    OutputPort.send_packet
      { name := "o", component := some 1, openFlag := false, optional := false,
        connections := [Conn.queueConn [] (-1)] } (Packet.info (9 : Nat) none) =
      (SendOutcome.ok,
       { name := "o", component := some 1, openFlag := false, optional := false,
         connections := broadcast [Conn.queueConn [] (-1)] (Packet.info 9 none) }) ∧
    OutputPort.close
      { name := "o", component := some 1, openFlag := false, optional := false,
        connections := [Conn.queueConn ([] : List (Packet Nat)) (-1)] } =
      (SendOutcome.ok,
       { name := "o", component := some 1, openFlag := false, optional := false,
         connections := broadcast [Conn.queueConn [] (-1)]
           (Packet.setOwner (Packet.eos none) (some 1)) }) :=
  let big1 := closed_port_operations
    { name := "i", component := some 1, openFlag := false, iip := false,
      optional := false, connections := [Conn.queueConn [] (-1)] }
    { name := "o", component := some 1, openFlag := false, optional := false,
      connections := [Conn.queueConn [] (-1)] }
    (Packet.info 9 none) 0 rfl (by decide) (by decide) (by decide) rfl
  let big2 := closed_port_operations
    { name := "i", component := some 1, openFlag := false, iip := false,
      optional := false,
      connections := [Conn.queueConn [Packet.info (4 : Nat) none] (-1)] }
    { name := "o", component := some 1, openFlag := false, optional := false,
      connections := [Conn.queueConn [] (-1)] }
    (Packet.info 9 none) 0 rfl (by decide) (by decide) (by decide) rfl
  ⟨big1.1, big1.2.1 (by decide), big2.2.2.1 rfl (by decide),
   big1.2.2.2.1, big1.2.2.2.2⟩

/-- C6: [counterexample] PortInterface.send builds the packet with
`InformationPacket(value)` — no owner argument — so at a port whose
component is 1 the packet delivered to the connection carries owner none,
not the port's component: the claim that send wraps the value in a packet
whose owner is the owning component is false at this input. -/
theorem send_wrap_owner_not_component :
    OutputPort.send
      { name := "o", component := some 1, openFlag := true, optional := false,
        connections := [Conn.queueConn [] (-1)] } (42 : Nat) =
      (SendOutcome.ok,
       { name := "o", component := some 1, openFlag := true, optional := false,
         connections := [Conn.queueConn [Packet.info 42 none] (-1)] }) ∧
    Packet.owner (InformationPacket (42 : Nat)) ≠ some 1 := by
  exact ⟨rfl, by decide⟩

/-- C6 amended: send wraps the value in an InformationPacket whose owner
is unset (not the port's component) and hands it to the send path; on a
connected port with room on every queue the send is accepted — an unset
owner passes the ownership check — and the packet appended to every bound
connection is `Packet.info v none`. -/
theorem send_delivers_unowned_packet {α : Type} (port : OutputPort α) (v : α)
    (hconn : port.is_connected = true)
    (hful : port.connections.any Conn.full = false) :
    Packet.owner (InformationPacket v) = none ∧
    OutputPort.send port v =
      (SendOutcome.ok,
       { port with connections := broadcast port.connections (Packet.info v none) }) := by
  constructor
  · rfl
  · simp [OutputPort.send, OutputPort.send_packet, InformationPacket, hconn, hful,
      Packet.owner]

/-- Witness for C6 at a concrete connected port with component 1. -/
theorem send_delivers_unowned_packet_witness :
    Packet.owner (InformationPacket (5 : Nat)) = none ∧
    OutputPort.send
      { name := "o", component := some 1, openFlag := true, optional := false,
        connections := [Conn.queueConn [] (-1)] } (5 : Nat) =
      (SendOutcome.ok,
       { name := "o", component := some 1, openFlag := true, optional := false,
         connections := broadcast [Conn.queueConn [] (-1)] (Packet.info 5 none) }) :=
  send_delivers_unowned_packet
    { name := "o", component := some 1, openFlag := true, optional := false,
      connections := [Conn.queueConn [] (-1)] } 5 (by decide) (by decide)

/-- C7: on a connected output port with room on every bound queue, a
packet whose owner is set and differs from the port's component is
rejected with the ownership error and nothing is delivered (the port is
unchanged); the packet is broadcast to every bound connection exactly when
its owner is unset or equals the component. -/
theorem send_packet_ownership {α : Type} (port : OutputPort α) (p : Packet α)
    (hconn : port.is_connected = true)
    (hful : port.connections.any Conn.full = false) :
    (p.owner ≠ none → p.owner ≠ port.component →
      OutputPort.send_packet port p =
        (SendOutcome.error PyError.packetOwned, port)) ∧
    (p.owner = none ∨ p.owner = port.component →
      OutputPort.send_packet port p =
        (SendOutcome.ok, { port with connections := broadcast port.connections p })) := by
  constructor
  · intro h1 h2
    rw [OutputPort.send_packet, if_pos hconn, if_neg ?_]
    rintro (h | h)
    · exact h2 h
    · exact h1 h
  · intro h
    rcases h with h | h
    · simp [OutputPort.send_packet, hconn, hful, h]
    · simp [OutputPort.send_packet, hconn, hful, h]

/-- Witness for C7: a foreign-owned packet (owner 2, component 1) is
rejected and the port unchanged; an unowned packet is broadcast. -/
theorem send_packet_ownership_witness :
    (OutputPort.send_packet
      { name := "o", component := some 1, openFlag := true, optional := false,
        connections := [Conn.queueConn [] (-1)] } (Packet.info (8 : Nat) (some 2)) =
      (SendOutcome.error PyError.packetOwned,
       { name := "o", component := some 1, openFlag := true, optional := false,
         connections := [Conn.queueConn [] (-1)] })) ∧
    (OutputPort.send_packet
      { name := "o", component := some 1, openFlag := true, optional := false,
        connections := [Conn.queueConn [] (-1)] } (Packet.info (8 : Nat) none) =
      (SendOutcome.ok,
       { name := "o", component := some 1, openFlag := true, optional := false,
         connections := broadcast [Conn.queueConn [] (-1)] (Packet.info 8 none) })) :=
  ⟨(send_packet_ownership
      { name := "o", component := some 1, openFlag := true, optional := false,
        connections := [Conn.queueConn [] (-1)] } (Packet.info (8 : Nat) (some 2))
      (by decide) (by decide)).1 (by decide) (by decide),
   (send_packet_ownership
      { name := "o", component := some 1, openFlag := true, optional := false,
        connections := [Conn.queueConn [] (-1)] } (Packet.info (8 : Nat) none)
      (by decide) (by decide)).2 (Or.inl rfl)⟩

/-- C8: [counterexample] a register with one open connected port whose
queue head is EndOfStream: receive_packets propagates the
StopAsyncIteration raised by that port's receive_packet and returns no
mapping at all, while the claim says the call returns a mapping carrying a
stream-termination marker under the port's name. -/
theorem receive_packets_raises_on_eos :
    (PortRegister.receive_packets
      { component := 0,
        ports := [("a",
          { name := "a", component := some 0, openFlag := true, iip := false,
            optional := false,
            connections := [Conn.queueConn [Packet.eos none] (-1)] })] }
      0).1 =
      Except.error (ReceiveOutcome.stopIteration : ReceiveOutcome Nat) := by
  rfl

/-- C8 amended: receive_packets runs receive_packet on exactly the
currently open ports of the register (closed ports are skipped and left
untouched); when the open ports' names are pairwise distinct and every
open port's receive returns a data packet, the call returns the mapping
from each open port's name to its received outcome. When any open port's
receive instead raises the stream-termination signal, the call propagates
that exception in place of a mapping (counterexample theorem). -/
theorem receive_packets_open_ports {α : Type} (reg : PortRegister α)
    (choice : Nat)
    (hnames : ((PortRegister.openPorts reg).map (fun kv => kv.2.name)).Nodup)
    (hdata : ∀ kv ∈ PortRegister.openPorts reg,
      ∃ p, (InputPort.receive_packet kv.2 choice).1 = ReceiveOutcome.packet p) :
    (PortRegister.receive_packets reg choice).1 =
      Except.ok ((PortRegister.openPorts reg).map
        (fun kv => (kv.2.name, (InputPort.receive_packet kv.2 choice).1))) ∧
    (PortRegister.receive_packets reg choice).2.ports =
      reg.ports.map (fun kv =>
        if kv.2.openFlag then (kv.1, (InputPort.receive_packet kv.2 choice).2)
        else kv) := by
  constructor
  · have hkeys :
        ((([] : List (String × ReceiveOutcome α)).map Prod.fst) ++
          (((PortRegister.openPorts reg).map
            (fun kv => (kv.2.name, (InputPort.receive_packet kv.2 choice).1))).map
              Prod.fst)).Nodup := by
      simpa [List.map_map, Function.comp] using hnames
    have hfold := foldl_dictInsert_nodup
      ((PortRegister.openPorts reg).map
        (fun kv => (kv.2.name, (InputPort.receive_packet kv.2 choice).1)))
      [] hkeys
    have hall : ∀ kv ∈ (PortRegister.openPorts reg).map
        (fun kv => (kv.2.name, (InputPort.receive_packet kv.2 choice).1)),
        ∃ p, kv.2 = ReceiveOutcome.packet p := by
      intro kv hkv
      obtain ⟨src, hsrc, rfl⟩ := List.mem_map.mp hkv
      exact hdata src hsrc
    show awaitFutures
        (((PortRegister.openPorts reg).map
          (fun kv => (kv.2.name, (InputPort.receive_packet kv.2 choice).1))).foldl
            (fun m kv => dictInsert m kv.1 kv.2) []) = _
    rw [hfold, List.nil_append, awaitFutures_of_packets _ hall]
  · rfl

/-- Witness for C8: one open port with a data packet and one closed port;
the mapping holds exactly the open port's outcome and the closed port is
untouched. -/
theorem receive_packets_open_ports_witness :
    (PortRegister.receive_packets
      { component := 0,
        ports := [("b",
          { name := "b", component := some 0, openFlag := true, iip := false,
            optional := false,
            connections := [Conn.queueConn [Packet.info (3 : Nat) none] (-1)] }),
          ("c",
          { name := "c", component := some 0, openFlag := false, iip := false,
            optional := false, connections := [Conn.queueConn [] (-1)] })] }
      0).1 =
      Except.ok ((PortRegister.openPorts
        { component := 0,
          ports := [("b",
            { name := "b", component := some 0, openFlag := true, iip := false,
              optional := false,
              connections := [Conn.queueConn [Packet.info (3 : Nat) none] (-1)] }),
            ("c",
            { name := "c", component := some 0, openFlag := false, iip := false,
              optional := false, connections := [Conn.queueConn [] (-1)] })] }).map
        (fun kv => (kv.2.name, (InputPort.receive_packet kv.2 0).1))) ∧
    (PortRegister.receive_packets
      { component := 0,
        ports := [("b",
          { name := "b", component := some 0, openFlag := true, iip := false,
            optional := false,
            connections := [Conn.queueConn [Packet.info (3 : Nat) none] (-1)] }),
          ("c",
          { name := "c", component := some 0, openFlag := false, iip := false,
            optional := false, connections := [Conn.queueConn [] (-1)] })] }
      0).2.ports =
      ({ component := 0,
         ports := [("b",
           { name := "b", component := some 0, openFlag := true, iip := false,
             optional := false,
             connections := [Conn.queueConn [Packet.info (3 : Nat) none] (-1)] }),
           ("c",
           { name := "c", component := some 0, openFlag := false, iip := false,
             optional := false, connections := [Conn.queueConn [] (-1)] })] } :
        PortRegister Nat).ports.map (fun kv =>
          if kv.2.openFlag then (kv.1, (InputPort.receive_packet kv.2 0).2)
          else kv) :=
  receive_packets_open_ports
    { component := 0,
      ports := [("b",
        { name := "b", component := some 0, openFlag := true, iip := false,
          optional := false,
          connections := [Conn.queueConn [Packet.info (3 : Nat) none] (-1)] }),
        ("c",
        { name := "c", component := some 0, openFlag := false, iip := false,
          optional := false, connections := [Conn.queueConn [] (-1)] })] }
    0 (by decide)
    (by
      intro kv hkv
      cases hkv with
      | head => exact ⟨Packet.info 3 none, rfl⟩
      | tail _ hkv2 => cases hkv2)

/-- C9: [counterexample] two fresh (unowned) ports registered under the
same name "x": the second add_as raises no error and silently replaces the
first entry, so the claim — that a name collision fails with
PortAlreadyBound and leaves the mapping unchanged — is false at this
input. -/
theorem add_as_overwrites_on_name_collision :
    ((PortRegister.add_as { component := 1, ports := [] }
        { name := "x", component := none, openFlag := true, iip := false,
          optional := false, connections := ([] : List (Conn Nat)) } "x").bind
      (fun reg1 => PortRegister.add_as reg1
        { name := "y", component := none, openFlag := true, iip := false,
          optional := false, connections := [] } "x")) =
      Except.ok
        { component := 1,
          ports := [("x",
            { name := "y", component := some 1, openFlag := true, iip := false,
              optional := false, connections := [] })] } := by
  rfl

/-- C9 amended: add_as fails with the PortAlreadyExisting error exactly
when the port already has an owning component — and then the register is
untouched; when the port is unowned, the port is bound to the register's
component and stored under the name, silently replacing any existing entry
with that name. Name collisions raise nothing. -/
theorem add_as_component_check {α : Type} (reg : PortRegister α)
    (port : InputPort α) (nm : String) :
    (port.component ≠ none →
      PortRegister.add_as reg port nm =
        Except.error PyError.portAlreadyExisting) ∧
    (port.component = none →
      PortRegister.add_as reg port nm =
        Except.ok
          { reg with
            ports := dictInsert reg.ports nm
              { port with component := some reg.component } }) := by
  constructor
  · intro h
    simp [PortRegister.add_as, h]
  · intro h
    simp [PortRegister.add_as, h]

/-- Witness for C9: an owned port is rejected; a fresh port is stored. -/
theorem add_as_component_check_witness :
    (PortRegister.add_as { component := 1, ports := [] }
      { name := "x", component := some 5, openFlag := true, iip := false,
        optional := false, connections := ([] : List (Conn Nat)) } "x" =
      Except.error PyError.portAlreadyExisting) ∧
    (PortRegister.add_as { component := 1, ports := [] }
      { name := "x", component := none, openFlag := true, iip := false,
        optional := false, connections := ([] : List (Conn Nat)) } "x" =
      Except.ok
        { component := 1,
          ports := dictInsert [] "x"
            { name := "x", component := some 1, openFlag := true, iip := false,
              optional := false, connections := [] } }) :=
  ⟨(add_as_component_check { component := 1, ports := [] }
      { name := "x", component := some 5, openFlag := true, iip := false,
        optional := false, connections := ([] : List (Conn Nat)) } "x").1
      (by decide),
   (add_as_component_check { component := 1, ports := [] }
      { name := "x", component := none, openFlag := true, iip := false,
        optional := false, connections := ([] : List (Conn Nat)) } "x").2 rfl⟩

/-- C10: OutputPort.connect and InputPort.connect each build a brand-new
Connection — whose destination set is empty, so Connection.connect takes
its first-connect branch, never the merge-into-already-bound branch: the
call always succeeds, allocates a fresh queue of the requested size, binds
exactly the two ports (the output side as source, the input side as
destination) and registers the new connection on both endpoints'
connection sets. Two port-level connects allocate two Connection objects
and two queues (`asyncio.Queue(...)` per call), so — queue identities of
distinct allocations being distinct — two connects targeting the same
input port yield two distinct queues, not a shared one. -/
theorem port_connect_always_fresh {α : Type}
    (selfConns otherConns : List Nat) (connId selfId otherId : Nat)
    (size : Int) (freshQueue : Nat)
    (selfConns2 otherConns2 : List Nat) (connId2 selfId2 otherId2 : Nat)
    (size2 : Int) (freshQueue2 : Nat)
    (hfresh : freshQueue ≠ freshQueue2) :
    (OutputPort.connect (α := α) selfConns otherConns connId selfId otherId
        size freshQueue =
      Except.ok
        { conn :=
            { queueId := some freshQueue, queueItems := [], maxsize := size,
              source := [selfId], destination := [otherId] },
          sourcePortConns := setAdd selfConns connId,
          destPortConns := setAdd otherConns connId }) ∧
    (InputPort.connect (α := α) selfConns otherConns connId selfId otherId
        size freshQueue =
      Except.ok
        { conn :=
            { queueId := some freshQueue, queueItems := [], maxsize := size,
              source := [otherId], destination := [selfId] },
          sourcePortConns := setAdd otherConns connId,
          destPortConns := setAdd selfConns connId }) ∧
    (∀ st st2 : ConnectState α,
      OutputPort.connect selfConns otherConns connId selfId otherId
          size freshQueue = Except.ok st →
      OutputPort.connect selfConns2 otherConns2 connId2 selfId2 otherId2
          size2 freshQueue2 = Except.ok st2 →
      st.conn.queueId ≠ st2.conn.queueId) := by
  refine ⟨?_, ?_, ?_⟩
  · simp [OutputPort.connect, Connection.connect, Connection.mkNew, setAdd]
  · simp [InputPort.connect, Connection.connect, Connection.mkNew, setAdd]
  · intro st st2 h1 h2
    simp [OutputPort.connect, Connection.connect, Connection.mkNew, setAdd]
      at h1 h2
    rw [← h1, ← h2]
    simp [hfresh]

/-- Witness for C10 at concrete ids: two connects to the same input port
with queue allocations 100 and 101. -/
theorem port_connect_always_fresh_witness :
    (OutputPort.connect (α := Nat) [] [] 7 0 1 5 100 =
      Except.ok
        { conn :=
            { queueId := some 100, queueItems := [], maxsize := 5,
              source := [0], destination := [1] },
          sourcePortConns := setAdd [] 7,
          destPortConns := setAdd [] 7 }) ∧
    (InputPort.connect (α := Nat) [] [] 7 0 1 5 100 =
      Except.ok
        { conn :=
            { queueId := some 100, queueItems := [], maxsize := 5,
              source := [1], destination := [0] },
          sourcePortConns := setAdd [] 7,
          destPortConns := setAdd [] 7 }) ∧
    (∀ st st2 : ConnectState Nat,
      OutputPort.connect [] [] 7 0 1 5 100 = Except.ok st →
      OutputPort.connect [] [7] 8 2 1 5 101 = Except.ok st2 →
      st.conn.queueId ≠ st2.conn.queueId) :=
  port_connect_always_fresh [] [] 7 0 1 5 100 [] [7] 8 2 1 5 101 (by decide)

end Pyperator
